import Mathlib

/-!
Verification of the smartdns-rs entry point (`src/main.rs`).

The development shallowly embeds the code of `run_server` and the
declarations it uses: the middleware pipeline construction, the
configuration-file selection, the listener binding/registration loop,
the logger initialisation and the async-runtime construction.  The
filesystem, the socket layer and the long-running server future are
abstracted as explicit parameters (`fsExists`, `udpOk`, `tcpOk`,
`serverResult`); everything else follows the source line by line.
-/

namespace SmartDns

/-- The six concrete middleware stages of the pipeline
(`dns_mw_audit`, `dns_mw_zone`, `dns_mw_addr`, `dns_mw_cache`,
`dns_mw_spdt`, `dns_mw_ns`). -/
inductive Stage where
  | Audit
  | Zone
  | Address
  | Cache
  | SpeedTest
  | NameServer
deriving DecidableEq, Repr

/-- A `bind` / `bind-tcp` entry of the configuration; `addr` models the
iterator of socket addresses that `main.rs` flattens
(`.map(|s| s.addr).flatten()`). -/
structure BindServer where
  addr : List String
deriving DecidableEq, Repr

/-- The fields of `SmartDnsConfig` that `run_server` reads.  The parser
(`dns_conf.rs`) is outside the excerpt, so field types follow the spec's
configuration table; accessor methods `audit_size()`, `audit_num()` and
`cache_size()` are modelled as plain fields. -/
structure SmartDnsConfig where
  server_name : String := ""
  audit_enable : Bool := false
  audit_file : Option String := none
  audit_size : Nat := 0
  audit_num : Nat := 0
  address_rules : List String := []
  cache_size : Nat := 0
  speed_check_mode : List String := []
  log_level : Option String := none
  binds : List BindServer := []
  binds_tcp : List BindServer := []
deriving Repr

/-- The pipeline built by `run_server` lines 174–203: a
`DnsMiddlewareBuilder` starts empty and each `.with(...)` appends one
stage; Audit, Address, Cache and SpeedTest are guarded by the exact
conditions of the source, Zone and NameServer are unconditional and
NameServer is appended last. -/
def buildMiddleware (cfg : SmartDnsConfig) : List Stage :=
  (if cfg.audit_enable && cfg.audit_file.isSome then [Stage.Audit] else []) ++
  [Stage.Zone] ++
  (if 0 < cfg.address_rules.length then [Stage.Address] else []) ++
  (if 0 < cfg.cache_size then [Stage.Cache] else []) ++
  (if !cfg.speed_check_mode.isEmpty then [Stage.SpeedTest] else []) ++
  [Stage.NameServer]

/-- The fixed relative order of the stages as listed by the spec. -/
def fixedStageOrder : List Stage :=
  [Stage.Audit, Stage.Zone, Stage.Address, Stage.Cache, Stage.SpeedTest,
   Stage.NameServer]

/-- The enabling condition of each stage, read off `run_server`. -/
def stageEnabled (cfg : SmartDnsConfig) : Stage → Bool
  | Stage.Audit => cfg.audit_enable && cfg.audit_file.isSome
  | Stage.Zone => true
  | Stage.Address => decide (0 < cfg.address_rules.length)
  | Stage.Cache => decide (0 < cfg.cache_size)
  | Stage.SpeedTest => !cfg.speed_check_mode.isEmpty
  | Stage.NameServer => true

theorem buildMiddleware_eq_filter (cfg : SmartDnsConfig) :
    buildMiddleware cfg = fixedStageOrder.filter (stageEnabled cfg) := by
  unfold buildMiddleware fixedStageOrder
  simp only [List.filter, stageEnabled]
  cases h1 : cfg.audit_enable && cfg.audit_file.isSome <;>
    cases h2 : decide (0 < cfg.address_rules.length) <;>
      cases h3 : decide (0 < cfg.cache_size) <;>
        cases h4 : !cfg.speed_check_mode.isEmpty <;>
          simp_all

/-- C1: for every configuration the pipeline is an order-preserving
selection from the fixed stage order Audit, Zone, Address, Cache,
SpeedTest, NameServer, and the NameServer stage is present and last. -/
theorem buildMiddleware_ordered_nameserver_last (cfg : SmartDnsConfig) :
    List.Sublist (buildMiddleware cfg) fixedStageOrder ∧
    Stage.NameServer ∈ buildMiddleware cfg ∧
    (buildMiddleware cfg).getLast? = some Stage.NameServer := by
  refine ⟨?_, ?_, ?_⟩
  · rw [buildMiddleware_eq_filter]
    exact List.filter_sublist _
  · unfold buildMiddleware
    simp
  · unfold buildMiddleware
    simp only [List.append_assoc]
    rw [← List.append_assoc, ← List.append_assoc, ← List.append_assoc,
      ← List.append_assoc]
    exact List.getLast?_concat _

/-- C2: a stage is in the pipeline exactly when its enabling
configuration holds — Audit iff auditing is enabled and an audit file is
given, Address iff some address rule exists, Cache iff the cache size is
positive, SpeedTest iff the speed-check-mode list is non-empty, while
Zone and NameServer are always present. -/
theorem buildMiddleware_membership (cfg : SmartDnsConfig) :
    (Stage.Audit ∈ buildMiddleware cfg ↔
      cfg.audit_enable = true ∧ cfg.audit_file.isSome = true) ∧
    Stage.Zone ∈ buildMiddleware cfg ∧
    (Stage.Address ∈ buildMiddleware cfg ↔ 0 < cfg.address_rules.length) ∧
    (Stage.Cache ∈ buildMiddleware cfg ↔ 0 < cfg.cache_size) ∧
    (Stage.SpeedTest ∈ buildMiddleware cfg ↔ cfg.speed_check_mode ≠ []) ∧
    Stage.NameServer ∈ buildMiddleware cfg := by
  unfold buildMiddleware
  cases h1 : cfg.audit_enable && cfg.audit_file.isSome <;>
    cases h2 : decide (0 < cfg.address_rules.length) <;>
      cases h3 : decide (0 < cfg.cache_size) <;>
        cases h4 : cfg.speed_check_mode.isEmpty <;>
          simp_all [List.isEmpty_iff]

/-- The non-Android, non-Windows default candidate list of `run_server`
(lines 122–127). -/
def candidate_path : List String :=
  ["/etc/smartdns.conf",
   "/etc/smartdns/smartdns.conf",
   "/usr/local/etc/smartdns.conf",
   "/usr/local/etc/smartdns/smartdns.conf"]

/-- Where the configuration comes from: a file read by
`SmartDnsConfig::load_from_file`, or the embedded `DEFAULT_CONF` string
(`include_str!("../etc/smartdns/smartdns.conf")`). -/
inductive ConfigSource where
  | fromFile (path : String)
  | embeddedDefault
deriving DecidableEq, Repr

/-- The configuration selection of `run_server` lines 108–141: with
`--conf` the given path is loaded directly; otherwise the candidate
paths are filtered by existence and the first surviving one is loaded,
and if none exists the `.expect("No configuation file found.")` panics
(modelled as `Except.error` carrying the panic message). -/
def selectConfigSource (conf : Option String) (fsExists : String → Bool) :
    Except String ConfigSource :=
  match conf with
  | some c => Except.ok (ConfigSource.fromFile c)
  | none =>
    match (candidate_path.filter fsExists).head? with
    | some p => Except.ok (ConfigSource.fromFile p)
    | none => Except.error "No configuation file found."

/-- The trace of files actually passed to
`SmartDnsConfig::load_from_file`: the `--conf` path alone, or — because
the iterator chain `filter(exists).map(load).next()` is lazy — at most
the first existing candidate. -/
def loadedFiles (conf : Option String) (fsExists : String → Bool) :
    List String :=
  match conf with
  | some c => [c]
  | none => (candidate_path.filter fsExists).take 1

theorem head?_filter_eq_find? {α : Type} (p : α → Bool) (l : List α) :
    (l.filter p).head? = l.find? p := by
  induction l with
  | nil => rfl
  | cons a t ih =>
    by_cases h : p a <;> simp [List.filter_cons, List.find?, h, ih]

theorem take_one_filter_eq_toList_find? {α : Type} (p : α → Bool)
    (l : List α) : (l.filter p).take 1 = (l.find? p).toList := by
  rw [← head?_filter_eq_find?]
  cases h : (l.filter p) <;> simp [h]

/-- C3: without `--conf` (non-Android, non-Windows) the configuration is
loaded from the first existing file of the ordered candidate list, and
that file is the only one read. -/
theorem defaultSearch_loads_first_existing (fsExists : String → Bool)
    (p : String) (h : candidate_path.find? fsExists = some p) :
    selectConfigSource none fsExists = Except.ok (ConfigSource.fromFile p) ∧
    loadedFiles none fsExists = [p] := by
  constructor
  · unfold selectConfigSource
    rw [head?_filter_eq_find?, h]
  · unfold loadedFiles
    rw [take_one_filter_eq_toList_find?, h]
    rfl

def fsOnlySecondCandidate : String → Bool :=
  fun s => s == "/etc/smartdns/smartdns.conf"

/-- Witness for C3: when only `/etc/smartdns/smartdns.conf` exists, it
is the file selected and the only file read. -/
theorem defaultSearch_loads_first_existing_witness :
    selectConfigSource none fsOnlySecondCandidate =
      Except.ok (ConfigSource.fromFile "/etc/smartdns/smartdns.conf") ∧
    loadedFiles none fsOnlySecondCandidate =
      ["/etc/smartdns/smartdns.conf"] :=
  defaultSearch_loads_first_existing fsOnlySecondCandidate
    "/etc/smartdns/smartdns.conf" (by decide)

/-- C10: with `--conf PATH` the configuration is loaded from PATH alone;
the candidate search path plays no role — the selection does not depend
on which files exist, and PATH is the only file read. -/
theorem conf_flag_bypasses_search (path : String)
    (fsExists fsExists' : String → Bool) :
    selectConfigSource (some path) fsExists =
      Except.ok (ConfigSource.fromFile path) ∧
    loadedFiles (some path) fsExists = [path] ∧
    selectConfigSource (some path) fsExists =
      selectConfigSource (some path) fsExists' :=
  ⟨rfl, rfl, rfl⟩

/-- C5: `run_server` never falls back to the embedded default
configuration: no selection yields `embeddedDefault`, and when no
`--conf` is given and no candidate file exists startup fails with the
panic `"No configuation file found."` instead of loading the default. -/
theorem embedded_default_never_used (conf : Option String)
    (fsExists : String → Bool) :
    selectConfigSource conf fsExists ≠
      Except.ok ConfigSource.embeddedDefault ∧
    (candidate_path.find? fsExists = none →
      selectConfigSource none fsExists =
        Except.error "No configuation file found.") := by
  constructor
  · unfold selectConfigSource
    match conf with
    | some c => simp
    | none =>
      cases h : (candidate_path.filter fsExists).head? <;> simp [h]
  · intro h
    unfold selectConfigSource
    rw [head?_filter_eq_find?, h]

/-- Witness for C5: with an empty filesystem the run fails with the
panic message rather than using the embedded default. -/
theorem embedded_default_never_used_witness :
    selectConfigSource none (fun _ => false) ≠
      Except.ok ConfigSource.embeddedDefault ∧
    selectConfigSource none (fun _ => false) =
      Except.error "No configuation file found." :=
  ⟨(embedded_default_never_used none (fun _ => false)).1,
   (embedded_default_never_used none (fun _ => false)).2 (by decide)⟩

/-- The tracing levels used by `run_server` (`tracing::Level`). -/
inductive Level where
  | DEBUG
  | INFO
  | WARN
  | ERROR
deriving DecidableEq, Repr

/-- The level name recognised by `tracing::Level::from_str`, as the spec
option `log-level debug|info|warn|error` names levels. -/
def levelOfString (s : String) : Option Level :=
  match s with
  | "debug" => some Level.DEBUG
  | "info" => some Level.INFO
  | "warn" => some Level.WARN
  | "error" => some Level.ERROR
  | _ => none

/-- Observable events of one `run_server` execution, in program order:
logger initialisation, configuration load, Tokio runtime construction
with its worker-thread count, socket binding/registration, the start of
connection awaiting, and termination (a clean return of `main`, exit
code 0, or a Rust panic). -/
inductive Event where
  | loggerInit (lvl : Level)
  | loadConfig (src : ConfigSource)
  | buildRuntime (workerThreads : Nat)
  | registerUdp (addr : String)
  | registerTcp (addr : String) (timeoutSecs : Nat)
  | awaitConnections
  | exited (code : Nat)
  | panicked (msg : String)
deriving DecidableEq, Repr

/-- The UDP addresses, `cfg.binds.clone().into_iter().map(|s| s.addr).flatten()`. -/
def udpSocketAddrs (cfg : SmartDnsConfig) : List String :=
  (cfg.binds.map BindServer.addr).flatten

/-- The TCP addresses, `cfg.binds_tcp.clone().into_iter().map(|s| s.addr).flatten()`. -/
def tcpSocketAddrs (cfg : SmartDnsConfig) : List String :=
  (cfg.binds_tcp.map BindServer.addr).flatten

/-- The UDP loop of `run_server` lines 211–226: each address is bound
(`unwrap_or_else(|_| panic!("could not bind to udp: {}", addr))` on
failure, which aborts the loop) and registered with the server.  Returns
the emitted events and whether the loop completed. -/
def bindRegisterUdp (udpOk : String → Bool) : List String → List Event × Bool
  | [] => ([], true)
  | a :: rest =>
    if udpOk a then
      let r := bindRegisterUdp udpOk rest
      (Event.registerUdp a :: r.1, r.2)
    else
      ([Event.panicked ("could not bind to udp: " ++ a)], false)

/-- The TCP loop of `run_server` lines 229–244: each address is bound
(panic `"could not bind to tcp: {}"` on failure) and registered with
`register_listener(listener, Duration::from_secs(5))`. -/
def bindRegisterTcp (tcpOk : String → Bool) : List String → List Event × Bool
  | [] => ([], true)
  | a :: rest =>
    if tcpOk a then
      let r := bindRegisterTcp tcpOk rest
      (Event.registerTcp a 5 :: r.1, r.2)
    else
      ([Event.panicked ("could not bind to tcp: " ++ a)], false)

/-- The event trace of `run_server(conf, debug)`: the logger is set up
first (`DEBUG` when `--debug`, else `INFO`; the block applying the
`log-level` option is commented out in the source), then the
configuration is selected (panicking when none is found), the runtime is
built with `worker_threads(4)`, the UDP then TCP listeners are bound and
registered, connections are awaited, and the run ends in exit code 0 on
a clean shutdown or in a panic when `block_until_done` errors.
`fsExists`, `udpOk`, `tcpOk` abstract the filesystem and socket layer,
`cfgOf` the parsed content of the configuration source, `ver` the crate
version and `serverResult` the outcome of the server future. -/
def runServerTrace (conf : Option String) (debug : Bool)
    (fsExists udpOk tcpOk : String → Bool)
    (cfgOf : ConfigSource → SmartDnsConfig) (ver : String)
    (serverResult : Except String Unit) : List Event :=
  Event.loggerInit (if debug then Level.DEBUG else Level.INFO) ::
    match selectConfigSource conf fsExists with
    | Except.error msg => [Event.panicked msg]
    | Except.ok src =>
      let cfg := cfgOf src
      Event.loadConfig src ::
      Event.buildRuntime 4 ::
      (let udpR := bindRegisterUdp udpOk (udpSocketAddrs cfg)
       udpR.1 ++
         (if udpR.2 then
            let tcpR := bindRegisterTcp tcpOk (tcpSocketAddrs cfg)
            tcpR.1 ++
              (if tcpR.2 then
                 Event.awaitConnections ::
                   (match serverResult with
                    | Except.ok _ => [Event.exited 0]
                    | Except.error e =>
                        [Event.panicked
                          ("Smart-DNS " ++ ver ++
                            " has encountered an error: " ++ e)])
               else [])
          else []))

/-- How the process terminates: the last event of the trace. -/
def runServerOutcome (conf : Option String) (debug : Bool)
    (fsExists udpOk tcpOk : String → Bool)
    (cfgOf : ConfigSource → SmartDnsConfig) (ver : String)
    (serverResult : Except String Unit) : Option Event :=
  (runServerTrace conf debug fsExists udpOk tcpOk cfgOf ver
    serverResult).getLast?

theorem bindRegisterUdp_snd (udpOk : String → Bool) (l : List String) :
    (bindRegisterUdp udpOk l).2 = l.all udpOk := by
  induction l with
  | nil => rfl
  | cons a rest ih =>
    by_cases h : udpOk a <;> simp [bindRegisterUdp, h, ih]

theorem bindRegisterTcp_snd (tcpOk : String → Bool) (l : List String) :
    (bindRegisterTcp tcpOk l).2 = l.all tcpOk := by
  induction l with
  | nil => rfl
  | cons a rest ih =>
    by_cases h : tcpOk a <;> simp [bindRegisterTcp, h, ih]

theorem bindRegisterUdp_all_ok (udpOk : String → Bool) (l : List String)
    (h : l.all udpOk = true) :
    bindRegisterUdp udpOk l = (l.map Event.registerUdp, true) := by
  induction l with
  | nil => rfl
  | cons a rest ih =>
    simp only [List.all_cons, Bool.and_eq_true] at h
    simp [bindRegisterUdp, h.1, ih h.2]

theorem bindRegisterTcp_all_ok (tcpOk : String → Bool) (l : List String)
    (h : l.all tcpOk = true) :
    bindRegisterTcp tcpOk l =
      (l.map (fun a => Event.registerTcp a 5), true) := by
  induction l with
  | nil => rfl
  | cons a rest ih =>
    simp only [List.all_cons, Bool.and_eq_true] at h
    simp [bindRegisterTcp, h.1, ih h.2]

theorem bindRegisterUdp_fail_last (udpOk : String → Bool) (l : List String)
    (h : l.all udpOk = false) :
    ∃ m, ((bindRegisterUdp udpOk l).1).getLast? = some (Event.panicked m) := by
  induction l with
  | nil => simp at h
  | cons a rest ih =>
    by_cases ha : udpOk a
    · simp only [List.all_cons, ha, Bool.true_and] at h
      obtain ⟨m, hm⟩ := ih h
      refine ⟨m, ?_⟩
      have hne : (bindRegisterUdp udpOk rest).1 ≠ [] := by
        intro hnil
        rw [hnil] at hm
        simp at hm
      rcases hx : (bindRegisterUdp udpOk rest).1 with _ | ⟨b, bs⟩
      · exact absurd hx hne
      · rw [hx] at hm
        simp [bindRegisterUdp, ha, hx]
        simpa using hm
    · exact ⟨"could not bind to udp: " ++ a, by simp [bindRegisterUdp, ha]⟩

theorem bindRegisterTcp_fail_last (tcpOk : String → Bool) (l : List String)
    (h : l.all tcpOk = false) :
    ∃ m, ((bindRegisterTcp tcpOk l).1).getLast? = some (Event.panicked m) := by
  induction l with
  | nil => simp at h
  | cons a rest ih =>
    by_cases ha : tcpOk a
    · simp only [List.all_cons, ha, Bool.true_and] at h
      obtain ⟨m, hm⟩ := ih h
      refine ⟨m, ?_⟩
      have hne : (bindRegisterTcp tcpOk rest).1 ≠ [] := by
        intro hnil
        rw [hnil] at hm
        simp at hm
      rcases hx : (bindRegisterTcp tcpOk rest).1 with _ | ⟨b, bs⟩
      · exact absurd hx hne
      · rw [hx] at hm
        simp [bindRegisterTcp, ha, hx]
        simpa using hm
    · exact ⟨"could not bind to tcp: " ++ a, by simp [bindRegisterTcp, ha]⟩

/-- The shape every event of a `run_server` trace has: the logger level
is fixed by `--debug` alone, the runtime always gets 4 workers, every
TCP registration carries the 5-second timeout, and the only exit code is
0. -/
def eventShapeOk (debug : Bool) : Event → Prop
  | Event.loggerInit l => l = (if debug then Level.DEBUG else Level.INFO)
  | Event.buildRuntime n => n = 4
  | Event.registerTcp _ ts => ts = 5
  | Event.exited c => c = 0
  | _ => True

def isLoggerInit : Event → Bool
  | Event.loggerInit _ => true
  | _ => false

theorem bindRegisterUdp_shape (debug : Bool) (udpOk : String → Bool)
    (l : List String) :
    ∀ e ∈ (bindRegisterUdp udpOk l).1,
      eventShapeOk debug e ∧ isLoggerInit e = false := by
  induction l with
  | nil => simp [bindRegisterUdp]
  | cons a rest ih =>
    by_cases ha : udpOk a
    · intro e he
      simp only [bindRegisterUdp, ha, if_true, List.mem_cons] at he
      rcases he with rfl | he
      · exact ⟨trivial, rfl⟩
      · exact ih e he
    · intro e he
      simp [bindRegisterUdp, ha] at he
      subst he
      exact ⟨trivial, rfl⟩

theorem bindRegisterTcp_shape (debug : Bool) (tcpOk : String → Bool)
    (l : List String) :
    ∀ e ∈ (bindRegisterTcp tcpOk l).1,
      eventShapeOk debug e ∧ isLoggerInit e = false := by
  induction l with
  | nil => simp [bindRegisterTcp]
  | cons a rest ih =>
    by_cases ha : tcpOk a
    · intro e he
      simp only [bindRegisterTcp, ha, if_true, List.mem_cons] at he
      rcases he with rfl | he
      · exact ⟨rfl, rfl⟩
      · exact ih e he
    · intro e he
      simp [bindRegisterTcp, ha] at he
      subst he
      exact ⟨trivial, rfl⟩

theorem runServerTrace_shape (conf : Option String) (debug : Bool)
    (fsExists udpOk tcpOk : String → Bool)
    (cfgOf : ConfigSource → SmartDnsConfig) (ver : String)
    (sr : Except String Unit) :
    ∀ e ∈ runServerTrace conf debug fsExists udpOk tcpOk cfgOf ver sr,
      eventShapeOk debug e := by
  intro e he
  unfold runServerTrace at he
  rcases List.mem_cons.mp he with rfl | he
  · rfl
  · cases hsel : selectConfigSource conf fsExists with
    | error msg =>
      rw [hsel] at he
      simp only [List.mem_singleton] at he
      subst he
      trivial
    | ok src =>
      rw [hsel] at he
      simp only [List.mem_cons, List.mem_append] at he
      rcases he with rfl | rfl | he
      · trivial
      · rfl
      · rcases he with he | he
        · exact (bindRegisterUdp_shape debug udpOk _ e he).1
        · rcases hud : (bindRegisterUdp udpOk (udpSocketAddrs (cfgOf src))).2 with _ | _
          · rw [hud] at he
            simp at he
          · rw [hud] at he
            simp only [if_true, List.mem_append] at he
            rcases he with he | he
            · exact (bindRegisterTcp_shape debug tcpOk _ e he).1
            · rcases htc : (bindRegisterTcp tcpOk (tcpSocketAddrs (cfgOf src))).2 with _ | _
              · rw [htc] at he
                simp at he
              · rw [htc] at he
                simp only [if_true, List.mem_cons] at he
                rcases he with rfl | he
                · trivial
                · cases sr with
                  | ok u =>
                    simp only [List.mem_singleton] at he
                    subst he
                    rfl
                  | error e' =>
                    simp only [List.mem_singleton] at he
                    subst he
                    trivial

theorem runServerTrace_tail_no_loggerInit (conf : Option String)
    (debug : Bool) (fsExists udpOk tcpOk : String → Bool)
    (cfgOf : ConfigSource → SmartDnsConfig) (ver : String)
    (sr : Except String Unit) :
    ∀ e ∈ (runServerTrace conf debug fsExists udpOk tcpOk cfgOf ver
        sr).tail, isLoggerInit e = false := by
  intro e he
  unfold runServerTrace at he
  rw [List.tail_cons] at he
  cases hsel : selectConfigSource conf fsExists with
  | error msg =>
    rw [hsel] at he
    simp only [List.mem_singleton] at he
    subst he
    rfl
  | ok src =>
    rw [hsel] at he
    simp only [List.mem_cons, List.mem_append] at he
    rcases he with rfl | rfl | he
    · rfl
    · rfl
    · rcases he with he | he
      · exact (bindRegisterUdp_shape debug udpOk _ e he).2
      · rcases hud : (bindRegisterUdp udpOk (udpSocketAddrs (cfgOf src))).2 with _ | _
        · rw [hud] at he
          simp at he
        · rw [hud] at he
          simp only [if_true, List.mem_append] at he
          rcases he with he | he
          · exact (bindRegisterTcp_shape debug tcpOk _ e he).2
          · rcases htc : (bindRegisterTcp tcpOk (tcpSocketAddrs (cfgOf src))).2 with _ | _
            · rw [htc] at he
              simp at he
            · rw [htc] at he
              simp only [if_true, List.mem_cons] at he
              rcases he with rfl | he
              · rfl
              · cases sr with
                | ok u =>
                  simp only [List.mem_singleton] at he
                  subst he
                  rfl
                | error e' =>
                  simp only [List.mem_singleton] at he
                  subst he
                  rfl

theorem runServerTrace_error_eq (conf : Option String) (debug : Bool)
    (fsExists udpOk tcpOk : String → Bool)
    (cfgOf : ConfigSource → SmartDnsConfig) (ver : String)
    (sr : Except String Unit) (msg : String)
    (hsel : selectConfigSource conf fsExists = Except.error msg) :
    runServerTrace conf debug fsExists udpOk tcpOk cfgOf ver sr =
      [Event.loggerInit (if debug then Level.DEBUG else Level.INFO),
       Event.panicked msg] := by
  unfold runServerTrace
  rw [hsel]

theorem runServerTrace_ok_eq (conf : Option String) (debug : Bool)
    (fsExists udpOk tcpOk : String → Bool)
    (cfgOf : ConfigSource → SmartDnsConfig) (ver : String)
    (sr : Except String Unit) (src : ConfigSource)
    (hsel : selectConfigSource conf fsExists = Except.ok src) :
    runServerTrace conf debug fsExists udpOk tcpOk cfgOf ver sr =
      Event.loggerInit (if debug then Level.DEBUG else Level.INFO) ::
      Event.loadConfig src ::
      Event.buildRuntime 4 ::
      ((bindRegisterUdp udpOk (udpSocketAddrs (cfgOf src))).1 ++
        (if (bindRegisterUdp udpOk (udpSocketAddrs (cfgOf src))).2 then
          (bindRegisterTcp tcpOk (tcpSocketAddrs (cfgOf src))).1 ++
            (if (bindRegisterTcp tcpOk (tcpSocketAddrs (cfgOf src))).2 then
              Event.awaitConnections ::
                (match sr with
                 | Except.ok _ => [Event.exited 0]
                 | Except.error e =>
                     [Event.panicked
                       ("Smart-DNS " ++ ver ++
                         " has encountered an error: " ++ e)])
             else [])
         else [])) := by
  unfold runServerTrace
  rw [hsel]

theorem getLast?_cons_some {α : Type} (a : α) (l : List α) (v : α)
    (h : l.getLast? = some v) : (a :: l).getLast? = some v := by
  rw [List.getLast?_cons, h]
  rfl

/-- C4 (amended): the only exit code the process produces is 0, on a
clean shutdown with the configuration found and every listener bound;
a configuration-error (no configuration file found) and a bind failure
terminate the process by a Rust panic instead of exit codes 1 and 2. -/
theorem runServer_exit_codes (conf : Option String) (debug : Bool)
    (fsExists udpOk tcpOk : String → Bool)
    (cfgOf : ConfigSource → SmartDnsConfig) (ver : String)
    (sr : Except String Unit) :
    (runServerOutcome conf debug fsExists udpOk tcpOk cfgOf ver sr =
        some (Event.exited 0) ↔
      (∃ src, selectConfigSource conf fsExists = Except.ok src ∧
        (udpSocketAddrs (cfgOf src)).all udpOk = true ∧
        (tcpSocketAddrs (cfgOf src)).all tcpOk = true) ∧
      sr = Except.ok ()) ∧
    (∀ msg, selectConfigSource conf fsExists = Except.error msg →
      runServerOutcome conf debug fsExists udpOk tcpOk cfgOf ver sr =
        some (Event.panicked msg)) ∧
    ∀ c, runServerOutcome conf debug fsExists udpOk tcpOk cfgOf ver sr =
        some (Event.exited c) → c = 0 := by
  refine ⟨?_, ?_, ?_⟩
  · unfold runServerOutcome
    cases hsel : selectConfigSource conf fsExists with
    | error msg =>
      rw [runServerTrace_error_eq conf debug fsExists udpOk tcpOk cfgOf ver
        sr msg hsel]
      simp
    | ok src =>
      rw [runServerTrace_ok_eq conf debug fsExists udpOk tcpOk cfgOf ver
        sr src hsel]
      cases hu : (udpSocketAddrs (cfgOf src)).all udpOk with
      | false =>
        have hud := bindRegisterUdp_snd udpOk (udpSocketAddrs (cfgOf src))
        rw [hu] at hud
        obtain ⟨m, hm⟩ := bindRegisterUdp_fail_last udpOk _ hu
        rw [hud]
        have hlast : ((bindRegisterUdp udpOk
            (udpSocketAddrs (cfgOf src))).1 ++
              (if false = true then
                (bindRegisterTcp tcpOk (tcpSocketAddrs (cfgOf src))).1 ++
                  (if (bindRegisterTcp tcpOk
                      (tcpSocketAddrs (cfgOf src))).2 then
                    Event.awaitConnections ::
                      (match sr with
                       | Except.ok _ => [Event.exited 0]
                       | Except.error e =>
                           [Event.panicked
                             ("Smart-DNS " ++ ver ++
                               " has encountered an error: " ++ e)])
                   else [])
               else [])).getLast? = some (Event.panicked m) := by
          simp [hm]
        rw [getLast?_cons_some _ _ _ (getLast?_cons_some _ _ _
          (getLast?_cons_some _ _ _ hlast))]
        constructor
        · intro h
          simp at h
        · rintro ⟨⟨src', hsrc, hu', ht'⟩, hsr⟩
          injection hsrc with h'
          subst h'
          rw [hu] at hu'
          exact absurd hu' (by simp)
      | true =>
        rw [bindRegisterUdp_all_ok udpOk _ hu]
        cases ht : (tcpSocketAddrs (cfgOf src)).all tcpOk with
        | false =>
          have htd := bindRegisterTcp_snd tcpOk (tcpSocketAddrs (cfgOf src))
          rw [ht] at htd
          obtain ⟨m, hm⟩ := bindRegisterTcp_fail_last tcpOk _ ht
          rw [htd]
          have hlast : (((udpSocketAddrs (cfgOf src)).map Event.registerUdp)
              ++ (if true = true then
                (bindRegisterTcp tcpOk (tcpSocketAddrs (cfgOf src))).1 ++
                  (if false = true then
                    Event.awaitConnections ::
                      (match sr with
                       | Except.ok _ => [Event.exited 0]
                       | Except.error e =>
                           [Event.panicked
                             ("Smart-DNS " ++ ver ++
                               " has encountered an error: " ++ e)])
                   else [])
               else [])).getLast? = some (Event.panicked m) := by
            simp [hm]
          rw [getLast?_cons_some _ _ _ (getLast?_cons_some _ _ _
            (getLast?_cons_some _ _ _ hlast))]
          constructor
          · intro h
            simp at h
          · rintro ⟨⟨src', hsrc, hu', ht'⟩, hsr⟩
            injection hsrc with h'
            subst h'
            rw [ht] at ht'
            exact absurd ht' (by simp)
        | true =>
          rw [bindRegisterTcp_all_ok tcpOk _ ht]
          cases sr with
          | ok u =>
            have hlast : (((udpSocketAddrs (cfgOf src)).map
                Event.registerUdp) ++ (if true = true then
                  ((tcpSocketAddrs (cfgOf src)).map
                    (fun a => Event.registerTcp a 5)) ++
                    (if true = true then
                      [Event.awaitConnections, Event.exited 0]
                     else [])
                 else [])).getLast? = some (Event.exited 0) := by
              simp
            rw [getLast?_cons_some _ _ _ (getLast?_cons_some _ _ _
              (getLast?_cons_some _ _ _ hlast))]
            constructor
            · intro _
              exact ⟨⟨src, rfl, hu, ht⟩, rfl⟩
            · intro _
              rfl
          | error e =>
            have hlast : (((udpSocketAddrs (cfgOf src)).map
                Event.registerUdp) ++ (if true = true then
                  ((tcpSocketAddrs (cfgOf src)).map
                    (fun a => Event.registerTcp a 5)) ++
                    (if true = true then
                      [Event.awaitConnections,
                       Event.panicked
                         ("Smart-DNS " ++ ver ++
                           " has encountered an error: " ++ e)]
                     else [])
                 else [])).getLast? = some (Event.panicked
                  ("Smart-DNS " ++ ver ++
                    " has encountered an error: " ++ e)) := by
              simp
            rw [getLast?_cons_some _ _ _ (getLast?_cons_some _ _ _
              (getLast?_cons_some _ _ _ hlast))]
            simp
  · intro msg hsel
    unfold runServerOutcome
    rw [runServerTrace_error_eq conf debug fsExists udpOk tcpOk cfgOf ver
      sr msg hsel]
    rfl
  · intro c hc
    exact runServerTrace_shape conf debug fsExists udpOk tcpOk cfgOf ver sr
      (Event.exited c) (List.mem_of_getLast?_eq_some hc)

def cfgEmpty : SmartDnsConfig := {}

def cfgOneUdpBind : SmartDnsConfig :=
  { binds := [BindServer.mk ["127.0.0.1:53"]] }

/-- C4 counterexample: when no configuration file exists the run ends in
the panic `"No configuation file found."`, not in exit code 1; and when
binding the configured UDP address fails the run ends in the panic
`"could not bind to udp: ..."`, not in exit code 2. -/
theorem exit_codes_claim_false :
    runServerOutcome none false (fun _ => false) (fun _ => true)
        (fun _ => true) (fun _ => cfgEmpty) "0" (Except.ok ()) =
      some (Event.panicked "No configuation file found.") ∧
    runServerOutcome none false (fun _ => false) (fun _ => true)
        (fun _ => true) (fun _ => cfgEmpty) "0" (Except.ok ()) ≠
      some (Event.exited 1) ∧
    runServerOutcome (some "/etc/smartdns.conf") false (fun _ => true)
        (fun _ => false) (fun _ => true) (fun _ => cfgOneUdpBind) "0"
        (Except.ok ()) =
      some (Event.panicked "could not bind to udp: 127.0.0.1:53") ∧
    runServerOutcome (some "/etc/smartdns.conf") false (fun _ => true)
        (fun _ => false) (fun _ => true) (fun _ => cfgOneUdpBind) "0"
        (Except.ok ()) ≠ some (Event.exited 2) := by
  refine ⟨by decide, by decide, by decide, by decide⟩

/-- Witness for the amended C4: a run with an existing configuration
file, successful binds and a clean server shutdown exits with code 0. -/
theorem runServer_exit_codes_witness :
    runServerOutcome (some "/etc/smartdns.conf") false (fun _ => true)
        (fun _ => true) (fun _ => true) (fun _ => cfgOneUdpBind) "0"
        (Except.ok ()) = some (Event.exited 0) ∧
    (0 : Nat) = 0 :=
  ⟨by decide,
   (runServer_exit_codes (some "/etc/smartdns.conf") false (fun _ => true)
      (fun _ => true) (fun _ => true) (fun _ => cfgOneUdpBind) "0"
      (Except.ok ())).2.2 0 (by decide)⟩

def cfgLogLevelError : SmartDnsConfig := { log_level := some "error" }

/-- C6 counterexample: with `log-level error` configured and no
`--debug`, the logger is initialised at level INFO and not at the
configured ERROR level — the block applying the `log-level` option is
commented out in `run_server`. -/
theorem logger_level_claim_false :
    levelOfString "error" = some Level.ERROR ∧
    Event.loggerInit Level.INFO ∈
      runServerTrace (some "/etc/smartdns.conf") false (fun _ => true)
        (fun _ => true) (fun _ => true) (fun _ => cfgLogLevelError) "0"
        (Except.ok ()) ∧
    Event.loggerInit Level.ERROR ∉
      runServerTrace (some "/etc/smartdns.conf") false (fun _ => true)
        (fun _ => true) (fun _ => true) (fun _ => cfgLogLevelError) "0"
        (Except.ok ()) := by
  refine ⟨rfl, by decide, by decide⟩

/-- C6 (amended): the logger is initialised exactly once per run, at
level DEBUG when `--debug` is passed and at level INFO otherwise; the
`log-level` configuration option is ignored. -/
theorem logger_initialized_once (conf : Option String) (debug : Bool)
    (fsExists udpOk tcpOk : String → Bool)
    (cfgOf : ConfigSource → SmartDnsConfig) (ver : String)
    (sr : Except String Unit) :
    (runServerTrace conf debug fsExists udpOk tcpOk cfgOf ver sr).countP
        isLoggerInit = 1 ∧
    ∀ lvl, Event.loggerInit lvl ∈
        runServerTrace conf debug fsExists udpOk tcpOk cfgOf ver sr →
      lvl = if debug then Level.DEBUG else Level.INFO := by
  constructor
  · have htail := runServerTrace_tail_no_loggerInit conf debug fsExists
      udpOk tcpOk cfgOf ver sr
    rcases htr : runServerTrace conf debug fsExists udpOk tcpOk cfgOf ver
        sr with _ | ⟨e, rest⟩
    · exact absurd htr (by unfold runServerTrace; simp)
    · have he : isLoggerInit e = true := by
        have : e = Event.loggerInit
            (if debug then Level.DEBUG else Level.INFO) := by
          have := congrArg List.head? htr
          unfold runServerTrace at this
          simp at this
          exact this.symm
        rw [this]
        rfl
      rw [htr] at htail
      rw [List.tail_cons] at htail
      rw [List.countP_cons_of_pos _ _ he, List.countP_eq_zero.mpr
        (fun a ha => by simp [htail a ha])]
  · intro lvl hm
    exact runServerTrace_shape conf debug fsExists udpOk tcpOk cfgOf ver sr
      (Event.loggerInit lvl) hm

/-- Witness for the amended C6: in a concrete non-debug run the logger
is initialised once, and the level of its single initialisation is
INFO. -/
theorem logger_initialized_once_witness :
    (runServerTrace (some "/etc/smartdns.conf") false (fun _ => true)
        (fun _ => true) (fun _ => true) (fun _ => cfgLogLevelError) "0"
        (Except.ok ())).countP isLoggerInit = 1 ∧
    Level.INFO = if false then Level.DEBUG else Level.INFO :=
  ⟨(logger_initialized_once (some "/etc/smartdns.conf") false
      (fun _ => true) (fun _ => true) (fun _ => true)
      (fun _ => cfgLogLevelError) "0" (Except.ok ())).1,
   (logger_initialized_once (some "/etc/smartdns.conf") false
      (fun _ => true) (fun _ => true) (fun _ => true)
      (fun _ => cfgLogLevelError) "0" (Except.ok ())).2 Level.INFO
     (by decide)⟩

/-- C7: when the configuration is found and every configured bind
succeeds, every address under `bind` is registered as a UDP socket and
every address under `bind-tcp` as a TCP listener before the server
starts awaiting connections, and every TCP listener registration
carries the 5-second idle timeout. -/
theorem binds_registered_before_await (conf : Option String) (debug : Bool)
    (fsExists udpOk tcpOk : String → Bool)
    (cfgOf : ConfigSource → SmartDnsConfig) (ver : String)
    (sr : Except String Unit) (src : ConfigSource)
    (hsel : selectConfigSource conf fsExists = Except.ok src)
    (hu : (udpSocketAddrs (cfgOf src)).all udpOk = true)
    (ht : (tcpSocketAddrs (cfgOf src)).all tcpOk = true) :
    ∃ pre post,
      runServerTrace conf debug fsExists udpOk tcpOk cfgOf ver sr =
        pre ++ Event.awaitConnections :: post ∧
      (∀ a ∈ udpSocketAddrs (cfgOf src), Event.registerUdp a ∈ pre) ∧
      (∀ a ∈ tcpSocketAddrs (cfgOf src), Event.registerTcp a 5 ∈ pre) ∧
      ∀ a ts, Event.registerTcp a ts ∈
          runServerTrace conf debug fsExists udpOk tcpOk cfgOf ver sr →
        ts = 5 := by
  refine ⟨Event.loggerInit (if debug then Level.DEBUG else Level.INFO) ::
      Event.loadConfig src :: Event.buildRuntime 4 ::
      ((udpSocketAddrs (cfgOf src)).map Event.registerUdp ++
        (tcpSocketAddrs (cfgOf src)).map (fun a => Event.registerTcp a 5)),
    (match sr with
     | Except.ok _ => [Event.exited 0]
     | Except.error e =>
         [Event.panicked
           ("Smart-DNS " ++ ver ++ " has encountered an error: " ++ e)]),
    ?_, ?_, ?_, ?_⟩
  · rw [runServerTrace_ok_eq conf debug fsExists udpOk tcpOk cfgOf ver sr
      src hsel, bindRegisterUdp_all_ok udpOk _ hu,
      bindRegisterTcp_all_ok tcpOk _ ht]
    simp
  · intro a ha
    simp only [List.mem_cons, List.mem_append, List.mem_map]
    exact Or.inr (Or.inr (Or.inr (Or.inl ⟨a, ha, rfl⟩)))
  · intro a ha
    simp only [List.mem_cons, List.mem_append, List.mem_map]
    exact Or.inr (Or.inr (Or.inr (Or.inr ⟨a, ha, rfl⟩)))
  · intro a ts hm
    exact runServerTrace_shape conf debug fsExists udpOk tcpOk cfgOf ver sr
      (Event.registerTcp a ts) hm

def cfgOneOfEach : SmartDnsConfig :=
  { binds := [BindServer.mk ["127.0.0.1:53"]],
    binds_tcp := [BindServer.mk ["127.0.0.1:1053"]] }

/-- Witness for C7 at a configuration with one UDP and one TCP bind. -/
theorem binds_registered_before_await_witness :
    ∃ pre post,
      runServerTrace (some "/etc/smartdns.conf") false (fun _ => true)
          (fun _ => true) (fun _ => true) (fun _ => cfgOneOfEach) "0"
          (Except.ok ()) =
        pre ++ Event.awaitConnections :: post ∧
      (∀ a ∈ udpSocketAddrs cfgOneOfEach, Event.registerUdp a ∈ pre) ∧
      (∀ a ∈ tcpSocketAddrs cfgOneOfEach, Event.registerTcp a 5 ∈ pre) ∧
      ∀ a ts, Event.registerTcp a ts ∈
          runServerTrace (some "/etc/smartdns.conf") false (fun _ => true)
            (fun _ => true) (fun _ => true) (fun _ => cfgOneOfEach) "0"
            (Except.ok ()) →
        ts = 5 :=
  binds_registered_before_await (some "/etc/smartdns.conf") false
    (fun _ => true) (fun _ => true) (fun _ => true) (fun _ => cfgOneOfEach)
    "0" (Except.ok ()) (ConfigSource.fromFile "/etc/smartdns.conf") rfl
    (by decide) (by decide)

/-- C8: the async runtime is built with exactly 4 worker threads,
independently of the configuration: a runtime-construction event always
carries worker count 4, and any run whose configuration is found builds
such a runtime. -/
theorem runtime_four_workers (conf : Option String) (debug : Bool)
    (fsExists udpOk tcpOk : String → Bool)
    (cfgOf : ConfigSource → SmartDnsConfig) (ver : String)
    (sr : Except String Unit) :
    (∀ n, Event.buildRuntime n ∈
        runServerTrace conf debug fsExists udpOk tcpOk cfgOf ver sr →
      n = 4) ∧
    ∀ src, selectConfigSource conf fsExists = Except.ok src →
      Event.buildRuntime 4 ∈
        runServerTrace conf debug fsExists udpOk tcpOk cfgOf ver sr := by
  constructor
  · intro n hm
    exact runServerTrace_shape conf debug fsExists udpOk tcpOk cfgOf ver sr
      (Event.buildRuntime n) hm
  · intro src hsel
    rw [runServerTrace_ok_eq conf debug fsExists udpOk tcpOk cfgOf ver sr
      src hsel]
    simp

/-- Witness for C8 in a concrete run. -/
theorem runtime_four_workers_witness :
    (4 : Nat) = 4 ∧
    Event.buildRuntime 4 ∈
      runServerTrace (some "/etc/smartdns.conf") false (fun _ => true)
        (fun _ => true) (fun _ => true) (fun _ => cfgEmpty) "0"
        (Except.ok ()) :=
  ⟨(runtime_four_workers (some "/etc/smartdns.conf") false (fun _ => true)
      (fun _ => true) (fun _ => true) (fun _ => cfgEmpty) "0"
      (Except.ok ())).1 4 (by decide),
   (runtime_four_workers (some "/etc/smartdns.conf") false (fun _ => true)
      (fun _ => true) (fun _ => true) (fun _ => cfgEmpty) "0"
      (Except.ok ())).2 (ConfigSource.fromFile "/etc/smartdns.conf") rfl⟩

/-- An `Arc::new` allocation: the allocation list grows by one fresh
identifier, which the new handle carries. -/
def arcNew (allocs : List Nat) : Nat × List Nat :=
  (allocs.length, allocs ++ [allocs.length])

/-- `Arc::clone`: the clone is a handle to the same allocation. -/
def arcClone (handle : Nat) : Nat := handle

/-- The upstream-client handles handed out by the pipeline-construction
block of `run_server` (lines 166–206). -/
structure HandlerSetup where
  cacheClient : Option Nat
  pipelineClient : Nat
  stages : List Stage
deriving Repr, DecidableEq

/-- The pipeline-construction block: one `Arc::new(DnsClient::new(...))`
is the only client allocation; `dns_client.clone()` goes to
`DnsCacheMiddleware::new` when the cache stage is enabled, and
`dns_client.clone()` goes to `middleware_builder.build` for the
NameServer stage. -/
def buildHandler (cfg : SmartDnsConfig) (allocs : List Nat) :
    HandlerSetup × List Nat :=
  let r := arcNew allocs
  let dns_client := r.1
  ({ cacheClient :=
       if 0 < cfg.cache_size then some (arcClone dns_client) else none,
     pipelineClient := arcClone dns_client,
     stages := buildMiddleware cfg },
   r.2)

/-- C9: per run exactly one `DnsClient` is allocated, and the cache
middleware (when installed) and the pipeline builder both receive
handles to that single allocation. -/
theorem single_shared_dns_client (cfg : SmartDnsConfig)
    (allocs : List Nat) :
    ((buildHandler cfg allocs).2).length = allocs.length + 1 ∧
    (buildHandler cfg allocs).2 =
      allocs ++ [((buildHandler cfg allocs).1).pipelineClient] ∧
    (∀ c, ((buildHandler cfg allocs).1).cacheClient = some c →
      c = ((buildHandler cfg allocs).1).pipelineClient) ∧
    (0 < cfg.cache_size →
      ((buildHandler cfg allocs).1).cacheClient =
        some (((buildHandler cfg allocs).1).pipelineClient)) := by
  refine ⟨by simp [buildHandler, arcNew], rfl, ?_, ?_⟩
  · intro c hc
    by_cases h : 0 < cfg.cache_size
    · simp [buildHandler, arcNew, arcClone, h] at hc ⊢
      omega
    · simp [buildHandler, arcNew, arcClone, h] at hc
  · intro h
    simp [buildHandler, arcNew, arcClone, h]

def cfgCacheOn : SmartDnsConfig := { cache_size := 512 }

/-- Witness for C9 at a configuration with the cache enabled. -/
theorem single_shared_dns_client_witness :
    ((buildHandler cfgCacheOn []).2).length = 0 + 1 ∧
    (buildHandler cfgCacheOn []).2 =
      [] ++ [((buildHandler cfgCacheOn []).1).pipelineClient] ∧
    ((buildHandler cfgCacheOn []).1).cacheClient =
      some (((buildHandler cfgCacheOn []).1).pipelineClient) ∧
    (0 : Nat) = ((buildHandler cfgCacheOn []).1).pipelineClient :=
  ⟨(single_shared_dns_client cfgCacheOn []).1,
   (single_shared_dns_client cfgCacheOn []).2.1,
   (single_shared_dns_client cfgCacheOn []).2.2.2 (by decide),
   (single_shared_dns_client cfgCacheOn []).2.2.1 0 (by decide)⟩

end SmartDns
